/-
Verification of the Json-Fields schema-validation library.

The definitions below are a shallow embedding of the Rust sources under
src/: serde_json values are modelled by the Value inductive, validators
become total Lean functions, and Rust panics (todo!(), unreachable!(),
Option::expect) as well as the one ill-typed match arm in the source are
made explicit through the VOutcome.diverge constructor.  Machine integers
are modelled as Nat/Int with the explicit bounds the source checks, and
f64 comparisons with 0.0 are modelled over the exact rational value of
the (always finite) serde_json float, for which the comparison agrees
with the floating-point one.
-/
import Mathlib

/-- The possible sources of a Rust panic (or of an undefined result) in the
validation code.  Each constructor names one concrete place in the source. -/
inductive PanicKind : Type
  /-- The todo!() arms for I16, I32 and I64 in BasicType::validate_number
  (src/schema_type/basic_type.rs). -/
  | todoNum
  /-- The I8 arm of BasicType::validate_number: after a successful as_i64
  the source provides no result value at all (the range check and the final
  Ok are missing, so the arm does not even type-check). -/
  | illTypedI8
  /-- The unreachable!() catch-all arm of BasicType::validate_number. -/
  | unreachableArm
  /-- The .expect("Both vecs should be the same size, ...") in
  TupleType::validate (src/schema_type/advanced_type/tuple_type.rs). -/
  | tupleExpect
  /-- The todo!() body of OptionalField::validate
  (src/field/optional_field.rs). -/
  | todoOptionalField
deriving DecidableEq, Repr

/-- Result of running a validator: Ok(()), Err(e), or a panic / undefined
result of the given kind. -/
inductive VOutcome (E : Type) : Type
  | ok : VOutcome E
  | err (e : E) : VOutcome E
  | diverge (p : PanicKind) : VOutcome E

/-- Error conversion along the From impls that Rust's question-mark operator
inserts; panics pass through untouched. -/
def VOutcome.mapErr {E F : Type} (f : E → F) : VOutcome E → VOutcome F
  | .ok => .ok
  | .err e => .err (f e)
  | .diverge p => .diverge p

/-- True exactly on the panic coming from the .expect in TupleType::validate. -/
def VOutcome.isTupleExpectPanic {E : Type} : VOutcome E → Bool
  | .diverge .tupleExpect => true
  | _ => false

/-- serde_json::Number: a u64 (PosInt), a negative i64 (NegInt), or a finite
f64 (Float).  The float payload is modelled by its exact rational value; the
only operation the source applies to it is a comparison against 0.0, where
the exact and the floating-point comparison agree. -/
inductive JNumber : Type
  | posInt (n : Nat)
  | negInt (n : Int)
  | float (q : ℚ)

/-- The numeric value a serde_json::Number denotes. -/
def JNumber.toRat : JNumber → ℚ
  | .posInt n => n
  | .negInt n => n
  | .float q => q

/-- serde_json Number::as_f64: defined (up to f64 rounding, which cannot
change the sign) for every stored variant. -/
def JNumber.as_f64 : JNumber → Option ℚ
  | .posInt n => some n
  | .negInt n => some n
  | .float q => some q

/-- serde_json Number::as_u64: only the PosInt variant is a u64. -/
def JNumber.as_u64 : JNumber → Option Nat
  | .posInt n => some n
  | .negInt _ => none
  | .float _ => none

/-- serde_json Number::as_i64: a PosInt fits if it is at most i64::MAX, a
NegInt always fits, a Float never does. -/
def JNumber.as_i64 : JNumber → Option Int
  | .posInt n => if n ≤ 9223372036854775807 then some (n : Int) else none
  | .negInt n => some n
  | .float _ => none

/-- serde_json Number::is_u64. -/
def JNumber.is_u64 : JNumber → Bool
  | .posInt _ => true
  | .negInt _ => false
  | .float _ => false

/-- serde_json::Value.  Objects are modelled as association lists in
iteration order (lookups only ever use the first matching key, which is the
map behaviour). -/
inductive Value : Type
  | null
  | bool (b : Bool)
  | number (n : JNumber)
  | string (s : String)
  | array (items : List Value)
  | object (entries : List (String × Value))

/-- Value::is_number. -/
def Value.isNumber : Value → Bool
  | .number _ => true
  | _ => false

/-- Value::is_string. -/
def Value.isString : Value → Bool
  | .string _ => true
  | _ => false

/-- Value::is_array. -/
def Value.isArray : Value → Bool
  | .array _ => true
  | _ => false

/-- Value::is_null. -/
def Value.isNull : Value → Bool
  | .null => true
  | _ => false

/-- Value::get with a usize index: indexes arrays, None on anything else. -/
def Value.get : Value → Nat → Option Value
  | .array items, i => items[i]?
  | _, _ => none

/-- serde_json::Map::get, on the association-list model of a JSON object. -/
def jsonLookup : List (String × Value) → String → Option Value
  | [], _ => none
  | (k, v) :: rest, key => if k = key then some v else jsonLookup rest key

/-- Rust String::len counts UTF-8 bytes. -/
def strLen (s : String) : Nat := s.utf8ByteSize

/-- src/shared/mod.rs: helper used by serde to default a missing
requireFilled field to true. -/
def default_true : Bool := true

/-- The two string-format checks the source delegates to external crates
(uuid::Uuid::from_str succeeding, serde_email::is_valid_email).  They are
not part of this repository, so the development is parameterised over
them. -/
structure ExternalFormatOracles : Type where
  uuidOk : String → Bool
  emailOk : String → Bool

/-- A fixed oracle instance used to evaluate the model on concrete inputs
that never reach the Uuid/Email arms. -/
def noOracles : ExternalFormatOracles := ⟨fun _ => false, fun _ => false⟩

/-- src/schema_type/basic_type.rs: the BasicType enum. -/
inductive BasicType : Type
  | any
  | boolean
  | string
  | filledString
  | number
  | positiveNumber
  | negativeNumber
  | u8
  | u16
  | u32
  | u64
  | i8
  | i16
  | i32
  | i64
  | null
  | object
  | array
  | uuid
  | email
deriving DecidableEq, Repr

/-- src/schema_type/basic_type.rs: the BasicTypeValidationError enum. -/
inductive BasicTypeValidationError : Type
  | emptyString
  | notAPositiveNumber (n : JNumber)
  | notANegativeNumber (n : JNumber)
  | notAU8 (n : JNumber)
  | notAU16 (n : JNumber)
  | notAU32 (n : JNumber)
  | notAU64 (n : JNumber)
  | notAI8 (n : JNumber)
  | notAI16 (n : JNumber)
  | notAI32 (n : JNumber)
  | notAI64 (n : JNumber)
  | incorrectType (b : BasicType) (v : Value)
  | incorrectUuid (s : String)
  | incorrectEmail (s : String)

/-- BasicType::validate_number (src/schema_type/basic_type.rs, lines
126-194).  The I16/I32/I64 arms are todo!() in the source, the I8 arm
checks as_i64 and then provides no result (its range check and Ok are
missing, so the source arm does not type-check); all of these are modelled
as the corresponding diverge outcome. -/
def BasicType.validate_number (self : BasicType) (number : JNumber) :
    VOutcome BasicTypeValidationError :=
  match self with
  | .positiveNumber =>
    match number.as_f64 with
    | none => .err (.notAPositiveNumber number)
    | some value => if value < 0 then .err (.notAPositiveNumber number) else .ok
  | .negativeNumber =>
    match number.as_f64 with
    | none => .err (.notANegativeNumber number)
    | some value => if value > 0 then .err (.notANegativeNumber number) else .ok
  | .u8 =>
    match number.as_u64 with
    | none => .err (.notAU8 number)
    | some value => if value > 255 then .err (.notAU8 number) else .ok
  | .u16 =>
    match number.as_u64 with
    | none => .err (.notAU16 number)
    | some value => if value > 65535 then .err (.notAU16 number) else .ok
  | .u32 =>
    match number.as_u64 with
    | none => .err (.notAU32 number)
    | some value => if value > 4294967295 then .err (.notAU32 number) else .ok
  | .u64 => if !number.is_u64 then .err (.notAU64 number) else .ok
  | .i8 =>
    match number.as_i64 with
    | none => .err (.notAI8 number)
    | some _value => .diverge .illTypedI8
  | .i16 => .diverge .todoNum
  | .i32 => .diverge .todoNum
  | .i64 => .diverge .todoNum
  | _ => .diverge .unreachableArm

/-- BasicType::validate (impl Validator, src/schema_type/basic_type.rs,
lines 229-278).  The match arms are in source order; the external Uuid and
Email format checks are supplied by the oracle parameter. -/
def BasicType.validate (o : ExternalFormatOracles) (self : BasicType)
    (value : Value) : VOutcome BasicTypeValidationError :=
  match self, value with
  | .any, _ => .ok
  | .null, .null => .ok
  | .boolean, .bool _ => .ok
  | .number, .number _ => .ok
  | .positiveNumber, .number num => BasicType.validate_number .positiveNumber num
  | .negativeNumber, .number num => BasicType.validate_number .negativeNumber num
  | .u8, .number num => BasicType.validate_number .u8 num
  | .u16, .number num => BasicType.validate_number .u16 num
  | .u32, .number num => BasicType.validate_number .u32 num
  | .u64, .number num => BasicType.validate_number .u64 num
  | .i8, .number num => BasicType.validate_number .i8 num
  | .i16, .number num => BasicType.validate_number .i16 num
  | .i32, .number num => BasicType.validate_number .i32 num
  | .i64, .number num => BasicType.validate_number .i64 num
  | .string, .string _ => .ok
  | .filledString, .string s => if s.isEmpty then .err .emptyString else .ok
  | .array, .array _ => .ok
  | .object, .object _ => .ok
  | .uuid, .string string_value =>
    if o.uuidOk string_value then .ok else .err (.incorrectUuid string_value)
  | .email, .string string_value =>
    if !o.emailOk string_value then .err (.incorrectEmail string_value) else .ok
  | b, v => .err (.incorrectType b v)

/-- src/schema_type/advanced_type/advanced_string_type.rs: the
StringValidationError enum. -/
inductive StringValidationError : Type
  | notAString
  | requireFilled
  | stringTooLong
  | stringTooShort
deriving DecidableEq, Repr

/-- src/schema_type/advanced_type/advanced_string_type.rs: the
AdvancedStringType configuration struct. -/
structure AdvancedStringType : Type where
  require_filled : Bool
  min_length : Option Nat
  max_length : Option Nat

/-- AdvancedStringType::default(): require_filled true, no length bounds. -/
def AdvancedStringType.default : AdvancedStringType := ⟨true, none, none⟩

/-- AdvancedStringType::validate (impl Validator, lines 60-82): not a
string, then require_filled, then max_length, then min_length, first
violation wins. -/
def AdvancedStringType.validate (self : AdvancedStringType) (value : Value) :
    VOutcome StringValidationError :=
  match value with
  | .string s =>
    if s.isEmpty && self.require_filled then .err .requireFilled
    else
      match self.max_length with
      | some max_length =>
        if strLen s > max_length then .err .stringTooLong
        else
          match self.min_length with
          | some min_length =>
            if strLen s < min_length then .err .stringTooShort else .ok
          | none => .ok
      | none =>
        match self.min_length with
        | some min_length =>
          if strLen s < min_length then .err .stringTooShort else .ok
        | none => .ok
  | _ => .err .notAString

/- src/schema_type.rs and src/schema_type/advanced_type.rs: the recursive
schema tree.  The payload structs of the advanced variants (AnyOfType,
TupleType, ArrayType, ObjectType, OptionalType) and the Field struct of
src/schema_type/field.rs are inlined into the constructors; HashMaps are
modelled as association lists in iteration order. -/
mutual

inductive SchemaType : Type
  | basic (b : BasicType)
  | field (field_type : SchemaType) (label : String) (hint : Option String)
  | advanced (a : AdvancedType)
  | array (item : SchemaType)
  | tuple (items : List SchemaType)
  | object (entries : List (String × SchemaType))

inductive AdvancedType : Type
  | string (s : AdvancedStringType)
  | anyOf (variants : List SchemaType)
  | tuple (items : List SchemaType)
  | array (require_filled : Bool) (items : SchemaType)
  | object (entries : List (String × SchemaType))
  | optional (kind : SchemaType)

end

/-- src/schema_type/advanced_type/any_of_type.rs: AnyOfTypeError carries
the full variants list of the failed AnyOfType. -/
structure AnyOfTypeError : Type where
  variants : List SchemaType

/- The mutually recursive error enums: SchemaTypeValidationError
(src/schema_type.rs), AdvancedTypeValidationError
(src/schema_type/advanced_type.rs), TupleError, ArrayTypeError and
ObjectTypeError (their respective files); the boxed child errors become
plain constructor payloads. -/
mutual

inductive SchemaTypeValidationError : Type
  | basicTypeValidationError (e : BasicTypeValidationError)
  | advancedTypeValidationError (e : AdvancedTypeValidationError)

inductive AdvancedTypeValidationError : Type
  | stringValidationError (e : StringValidationError)
  | anyOfError (e : AnyOfTypeError)
  | tupleError (e : TupleError)
  | arrayError (e : ArrayTypeError)
  | objectError (e : ObjectTypeError)
  | schemaTypeValidationError (e : SchemaTypeValidationError)

inductive TupleError : Type
  | notAnArray
  | incorrectLength (found expected : Nat)
  | schemaTypeValidationError (e : SchemaTypeValidationError)

inductive ArrayTypeError : Type
  | notAnArray
  | requireFilled
  | schemaTypeValidationError (e : SchemaTypeValidationError)

inductive ObjectTypeError : Type
  | notAnObject
  | missingObjectKey (key : String)
  | schemaTypeValidationError (e : SchemaTypeValidationError)

end

/-- The if-let test in ObjectType::validate for a missing key: whether the
declared schema is SchemaType::Advanced(AdvancedType::Optional(_)). -/
def isOptionalSchema : SchemaType → Bool
  | .advanced (.optional _) => true
  | _ => false

mutual

/-- SchemaType::validate (impl Validator, src/schema_type.rs lines 65-100):
dispatches on the variant; the Array shorthand builds an ArrayType with
require_filled set to false, the Tuple and Object shorthands reuse their
payload directly; nested errors are wrapped the way the source's question
marks and map_errs do. -/
def SchemaType.validate (o : ExternalFormatOracles) (self : SchemaType)
    (value : Value) : VOutcome SchemaTypeValidationError :=
  match self with
  | .basic basic_type =>
    (BasicType.validate o basic_type value).mapErr .basicTypeValidationError
  | .field field_type _label _hint => SchemaType.validate o field_type value
  | .advanced advanced_type =>
    (AdvancedType.validate o advanced_type value).mapErr .advancedTypeValidationError
  | .array item =>
    (arrayValidate o false item value).mapErr
      (fun e => .advancedTypeValidationError (.arrayError e))
  | .tuple items =>
    (tupleValidate o items value).mapErr
      (fun e => .advancedTypeValidationError (.tupleError e))
  | .object entries =>
    (objectValidate o entries value).mapErr
      (fun e => .advancedTypeValidationError (.objectError e))
termination_by (sizeOf self, 0)

/-- AdvancedType::validate (impl Validator, src/schema_type/advanced_type.rs
lines 75-88): forwards to the active variant's validate, wrapping the error. -/
def AdvancedType.validate (o : ExternalFormatOracles) (self : AdvancedType)
    (value : Value) : VOutcome AdvancedTypeValidationError :=
  match self with
  | .string advanced_string =>
    (advanced_string.validate value).mapErr .stringValidationError
  | .anyOf variants => (anyOfValidate o variants value).mapErr .anyOfError
  | .tuple items => (tupleValidate o items value).mapErr .tupleError
  | .array require_filled items =>
    (arrayValidate o require_filled items value).mapErr .arrayError
  | .object entries => (objectValidate o entries value).mapErr .objectError
  | .optional kind =>
    (optionalValidate o kind value).mapErr .schemaTypeValidationError
termination_by (sizeOf self, 2)

/-- OptionalType::validate (src/schema_type/advanced_type/optional_type.rs
lines 27-38): null short-circuits to Ok, anything else delegates to the
wrapped schema. -/
def optionalValidate (o : ExternalFormatOracles) (kind : SchemaType)
    (value : Value) : VOutcome SchemaTypeValidationError :=
  match value with
  | .null => .ok
  | v => SchemaType.validate o kind v
termination_by (sizeOf kind, 1)

/-- AnyOfType::validate (src/schema_type/advanced_type/any_of_type.rs lines
31-43): on exhaustion the error carries the entire variants list. -/
def anyOfValidate (o : ExternalFormatOracles) (variants : List SchemaType)
    (value : Value) : VOutcome AnyOfTypeError :=
  match anyOfGo o variants value with
  | .ok => .ok
  | .err _ => .err ⟨variants⟩
  | .diverge p => .diverge p
termination_by (sizeOf variants, 1)

/-- The for-loop of AnyOfType::validate: try each variant in order, stop at
the first Ok. -/
def anyOfGo (o : ExternalFormatOracles) (variants : List SchemaType)
    (value : Value) : VOutcome Unit :=
  match variants with
  | [] => .err ()
  | variant :: rest =>
    match SchemaType.validate o variant value with
    | .ok => .ok
    | .err _ => anyOfGo o rest value
    | .diverge p => .diverge p
termination_by (sizeOf variants, 0)

/-- TupleType::validate (src/schema_type/advanced_type/tuple_type.rs lines
44-65): non-arrays are rejected, then the length check with the payload in
(actual, expected) order, then the indexed loop. -/
def tupleValidate (o : ExternalFormatOracles) (items : List SchemaType)
    (value : Value) : VOutcome TupleError :=
  match value with
  | .array value_items =>
    if value_items.length ≠ items.length then
      .err (.incorrectLength value_items.length items.length)
    else tupleGo o items (.array value_items) 0
  | _ => .err .notAnArray
termination_by (sizeOf items, 1 + sizeOf value)

/-- The enumerate loop of TupleType::validate: position i is fetched from
the whole value with Value::get, whose None case is the source's .expect
panic. -/
def tupleGo (o : ExternalFormatOracles) (items : List SchemaType)
    (value : Value) (i : Nat) : VOutcome TupleError :=
  match items with
  | [] => .ok
  | schema :: rest =>
    match value.get i with
    | none => .diverge .tupleExpect
    | some item_value =>
      match SchemaType.validate o schema item_value with
      | .ok => tupleGo o rest value (i + 1)
      | .err e => .err (.schemaTypeValidationError e)
      | .diverge p => .diverge p
termination_by (sizeOf items, sizeOf value)

/-- ArrayType::validate (src/schema_type/advanced_type/array_type.rs lines
47-64): non-arrays are rejected, an empty array fails when require_filled
is set, otherwise every element is validated against the items schema. -/
def arrayValidate (o : ExternalFormatOracles) (require_filled : Bool)
    (items : SchemaType) (value : Value) : VOutcome ArrayTypeError :=
  match value with
  | .array vals =>
    if vals.isEmpty && require_filled then .err .requireFilled
    else arrayGo o items vals
  | _ => .err .notAnArray
termination_by (sizeOf items, 1 + sizeOf value)

/-- The element loop of ArrayType::validate. -/
def arrayGo (o : ExternalFormatOracles) (items : SchemaType)
    (vals : List Value) : VOutcome ArrayTypeError :=
  match vals with
  | [] => .ok
  | item :: rest =>
    match SchemaType.validate o items item with
    | .ok => arrayGo o items rest
    | .err e => .err (.schemaTypeValidationError e)
    | .diverge p => .diverge p
termination_by (sizeOf items, sizeOf vals)

/-- ObjectType::validate (src/schema_type/advanced_type/object_type.rs
lines 49-71): non-objects are rejected, then the declared keys are walked
in iteration order. -/
def objectValidate (o : ExternalFormatOracles)
    (entries : List (String × SchemaType)) (value : Value) :
    VOutcome ObjectTypeError :=
  match value with
  | .object target_map => objectGo o entries target_map
  | _ => .err .notAnObject
termination_by (sizeOf entries, 1)

/-- The key loop of ObjectType::validate: a missing key whose schema is
Advanced(Optional(_)) returns Ok for the whole validation, any other
missing key is MissingObjectKey, a present key is validated against its
schema. -/
def objectGo (o : ExternalFormatOracles)
    (entries : List (String × SchemaType))
    (target_map : List (String × Value)) : VOutcome ObjectTypeError :=
  match entries with
  | [] => .ok
  | (key, schema) :: rest =>
    match jsonLookup target_map key with
    | none =>
      if isOptionalSchema schema then .ok
      else .err (.missingObjectKey key)
    | some value =>
      match SchemaType.validate o schema value with
      | .ok => objectGo o rest target_map
      | .err e => .err (.schemaTypeValidationError e)
      | .diverge p => .diverge p
termination_by (sizeOf entries, 0)

end

/-- src/errors/validation_error.rs: the legacy field module's error enum;
the Custom variant's boxed dyn Error payload is not inspectable and is
dropped. -/
inductive ValidationError : Type
  | notAnObject
  | missingKeyInObject (key : String)
  | notAString
  | stringNotFilled
  | stringNotMinLength (expected found : Nat)
  | stringExceedsMaxLength (expected found : Nat)
  | custom

/-- src/field.rs: the legacy Field enum.  OptionalField's single field,
StringField's configuration and ObjectField's map are inlined; a
CustomField's boxed dyn Validator becomes an arbitrary function. -/
inductive LegacyField : Type
  | optional (field : LegacyField)
  | string (require_filled : Option Bool) (min_length max_length : Option Nat)
  | object (entries : List (String × LegacyField))
  | customValidator (f : Value → VOutcome ValidationError)

/-- OptionalField::validate (src/field/optional_field.rs lines 18-22): the
body is todo!(), so every call panics. -/
def optionalFieldValidate (_field : LegacyField) (_value : Value) :
    VOutcome ValidationError :=
  .diverge .todoOptionalField

/-- StringField::validate (src/field/string_field.rs lines 14-39):
require_filled defaults to false here, and min_length is checked before
max_length. -/
def stringFieldValidate (require_filled : Option Bool)
    (min_length max_length : Option Nat) (value : Value) :
    VOutcome ValidationError :=
  match value with
  | .string s =>
    if require_filled.getD false && s.isEmpty then .err .stringNotFilled
    else
      match min_length with
      | some m =>
        if strLen s < m then .err (.stringNotMinLength m (strLen s))
        else
          match max_length with
          | some mx =>
            if strLen s > mx then .err (.stringExceedsMaxLength mx (strLen s))
            else .ok
          | none => .ok
      | none =>
        match max_length with
        | some mx =>
          if strLen s > mx then .err (.stringExceedsMaxLength mx (strLen s))
          else .ok
        | none => .ok
  | _ => .err .notAString

mutual

/-- Field::validate (src/field.rs lines 26-35): dispatch to the active
variant's validate. -/
def LegacyField.validate (self : LegacyField) (value : Value) :
    VOutcome ValidationError :=
  match self with
  | .optional optional_field => optionalFieldValidate optional_field value
  | .string require_filled min_length max_length =>
    stringFieldValidate require_filled min_length max_length value
  | .object entries => objectFieldValidate entries value
  | .customValidator f => f value
termination_by (sizeOf self, 1)

/-- ObjectField::validate (src/field/object_field.rs lines 33-49): every
declared key must be present (no optional handling in the legacy module). -/
def objectFieldValidate (entries : List (String × LegacyField))
    (value : Value) : VOutcome ValidationError :=
  match value with
  | .object map => objectFieldGo entries map
  | _ => .err .notAnObject
termination_by (sizeOf entries, 2)

/-- The key loop of ObjectField::validate. -/
def objectFieldGo (entries : List (String × LegacyField))
    (map : List (String × Value)) : VOutcome ValidationError :=
  match entries with
  | [] => .ok
  | (key, field) :: rest =>
    match jsonLookup map key with
    | none => .err (.missingKeyInObject key)
    | some value =>
      match LegacyField.validate field value with
      | .ok => objectFieldGo rest map
      | .err e => .err e
      | .diverge p => .diverge p
termination_by (sizeOf entries, 0)

end

/-- Proof-side reformulation of the tupleGo loop on the suffix of the value
list, used to reason about TupleType::validate by parallel list induction;
the mismatched-length case mirrors the .expect panic. -/
def tupleGoList (o : ExternalFormatOracles) :
    List SchemaType → List Value → VOutcome TupleError
  | [], _ => .ok
  | _ :: _, [] => .diverge .tupleExpect
  | schema :: srest, v :: vrest =>
    match SchemaType.validate o schema v with
    | .ok => tupleGoList o srest vrest
    | .err e => .err (.schemaTypeValidationError e)
    | .diverge p => .diverge p

/-- Option-style helper: whether a configured maxLength is exceeded. -/
def maxLengthViolated (t : AdvancedStringType) (s : String) : Bool :=
  match t.max_length with
  | some m => decide (strLen s > m)
  | none => false

/-- Option-style helper: whether a configured minLength is undershot. -/
def minLengthViolated (t : AdvancedStringType) (s : String) : Bool :=
  match t.min_length with
  | some m => decide (strLen s < m)
  | none => false

@[simp]
lemma isTupleExpectPanic_ok {E : Type} :
    (VOutcome.ok : VOutcome E).isTupleExpectPanic = false := rfl

@[simp]
lemma isTupleExpectPanic_err {E : Type} (e : E) :
    (VOutcome.err e).isTupleExpectPanic = false := rfl

@[simp]
lemma isTupleExpectPanic_diverge {E : Type} (p : PanicKind) :
    ((VOutcome.diverge p : VOutcome E)).isTupleExpectPanic
      = decide (p = .tupleExpect) := by
  cases p <;> rfl

@[simp]
lemma isTupleExpectPanic_mapErr {E F : Type} (f : E → F) (x : VOutcome E) :
    (x.mapErr f).isTupleExpectPanic = x.isTupleExpectPanic := by
  cases x with
  | diverge p => cases p <;> rfl
  | ok => rfl
  | err e => rfl

lemma as_f64_eq_toRat (n : JNumber) : n.as_f64 = some n.toRat := by
  cases n <;> rfl

/-- C1: the signed-integer arms of BasicType::validate do not implement the
claimed range checks at all: I16, I32 and I64 hit todo!() and panic on any
number, and the I8 arm is missing its range check and result value (it does
not even type-check), contradicting the file's own unit tests, which expect
Ok for in-range integral values and NotAI8/NotAI16/NotAI32/NotAI64
otherwise. -/
theorem basicType_signed_int_arms_unimplemented :
    ∀ o : ExternalFormatOracles,
      BasicType.validate o .i16 (.number (.posInt 0)) = .diverge .todoNum
      ∧ BasicType.validate o .i32 (.number (.posInt 0)) = .diverge .todoNum
      ∧ BasicType.validate o .i64 (.number (.posInt 0)) = .diverge .todoNum
      ∧ BasicType.validate o .i8 (.number (.posInt 128)) = .diverge .illTypedI8
      ∧ BasicType.validate o .i8 (.number (.posInt 5)) = .diverge .illTypedI8
      ∧ BasicType.validate o .i8 (.number (.float (Rat.divInt 11 10)))
          = .err (.notAI8 (.float (Rat.divInt 11 10))) :=
  fun _ => ⟨rfl, rfl, rfl, rfl, rfl, rfl⟩

/-- C8: PositiveNumber rejects a number with NotAPositiveNumber exactly when
its value is negative, NegativeNumber rejects with NotANegativeNumber
exactly when its value is positive (zero passes both), and non-numeric
values fail with IncorrectType. -/
theorem positive_negative_number_validate_spec :
    ∀ (o : ExternalFormatOracles) (n : JNumber) (v : Value),
      (BasicType.validate o .positiveNumber (.number n)
        = if n.toRat < 0 then .err (.notAPositiveNumber n) else .ok)
      ∧ (BasicType.validate o .negativeNumber (.number n)
        = if 0 < n.toRat then .err (.notANegativeNumber n) else .ok)
      ∧ (v.isNumber = false →
          BasicType.validate o .positiveNumber v
            = .err (.incorrectType .positiveNumber v)
          ∧ BasicType.validate o .negativeNumber v
            = .err (.incorrectType .negativeNumber v)) := by
  refine fun o n v => ⟨?_, ?_, ?_⟩
  · cases n <;>
      simp [BasicType.validate, BasicType.validate_number, JNumber.as_f64,
        JNumber.toRat]
  · cases n <;>
      simp [BasicType.validate, BasicType.validate_number, JNumber.as_f64,
        JNumber.toRat]
  · intro h
    cases v <;> simp_all [Value.isNumber] <;> constructor <;> rfl

/-- Witness for C8 at concrete inputs: null is not a number and -1 is a
negative number. -/
theorem positive_negative_number_validate_spec_witness :
    BasicType.validate noOracles .positiveNumber .null
      = .err (.incorrectType .positiveNumber .null)
    ∧ BasicType.validate noOracles .positiveNumber (.number (.negInt (-1)))
      = .err (.notAPositiveNumber (.negInt (-1)))
    ∧ BasicType.validate noOracles .negativeNumber (.number (.posInt 0)) = .ok :=
  ⟨((positive_negative_number_validate_spec noOracles (.posInt 0) .null).2.2
      rfl).1,
    ((positive_negative_number_validate_spec noOracles (.negInt (-1))
        .null).1).trans (if_pos (by decide)),
    ((positive_negative_number_validate_spec noOracles (.posInt 0)
        .null).2.1).trans (if_neg (by decide))⟩

/-- C3: the Array shorthand validates with require_filled false, so it
accepts the empty array for every item schema, while an ArrayType whose
require_filled field was defaulted by serde (default_true, i.e. the field
was absent from the literal) rejects the empty array with RequireFilled. -/
theorem array_shorthand_default_asymmetry :
    ∀ (o : ExternalFormatOracles) (item items : SchemaType),
      SchemaType.validate o (.array item) (.array []) = .ok
      ∧ arrayValidate o default_true items (.array [])
          = .err .requireFilled := by
  intro o item items
  constructor
  · simp [SchemaType.validate, arrayValidate, arrayGo, VOutcome.mapErr]
  · simp [arrayValidate, default_true]

/-- C4: AdvancedStringType::validate rejects non-strings with NotAString and
otherwise applies require_filled, then max_length, then min_length, the
first violated check determining the error (so StringTooLong wins over
StringTooShort when both bounds are violated). -/
theorem advanced_string_type_validate_spec :
    ∀ (t : AdvancedStringType) (v : Value),
      (v.isString = false → t.validate v = .err .notAString)
      ∧ ∀ s : String,
          t.validate (.string s)
            = if s.isEmpty && t.require_filled then .err .requireFilled
              else if maxLengthViolated t s then .err .stringTooLong
              else if minLengthViolated t s then .err .stringTooShort
              else .ok := by
  refine fun t v => ⟨fun h => ?_, fun s => ?_⟩
  · cases v <;> simp_all [Value.isString, AdvancedStringType.validate]
  · obtain ⟨rf, minL, maxL⟩ := t
    cases minL <;> cases maxL <;>
      simp [AdvancedStringType.validate, maxLengthViolated, minLengthViolated]

/-- Witness for C4: a configuration violating both bounds at once yields
StringTooLong, and a non-string input yields NotAString. -/
theorem advanced_string_type_validate_spec_witness :
    AdvancedStringType.validate ⟨true, some 3, some 1⟩ (.string "ab")
      = .err .stringTooLong
    ∧ AdvancedStringType.validate ⟨true, some 3, some 1⟩ .null
      = .err .notAString :=
  ⟨((advanced_string_type_validate_spec ⟨true, some 3, some 1⟩ .null).2
      "ab").trans (by rfl),
    (advanced_string_type_validate_spec ⟨true, some 3, some 1⟩ .null).1 rfl⟩

/-- C2: during the key walk of ObjectType::validate, reaching a declared
key that is missing from the candidate and whose schema is
Advanced(Optional(_)) returns Ok for the whole object validation at once,
regardless of what the remaining declared keys (rest) would require. -/
theorem object_type_missing_optional_key_short_circuits :
    ∀ (o : ExternalFormatOracles) (key : String) (kind : SchemaType)
      (rest : List (String × SchemaType)) (target : List (String × Value)),
      jsonLookup target key = none →
      objectGo o ((key, .advanced (.optional kind)) :: rest) target = .ok
      ∧ objectValidate o ((key, .advanced (.optional kind)) :: rest)
          (.object target) = .ok := by
  intro o key kind rest target h
  constructor
  · simp [objectGo, h, isOptionalSchema]
  · simp [objectValidate, objectGo, h, isOptionalSchema]

/-- Witness for C2: with the optional key visited first and a second,
required key that is also missing, the whole validation still returns Ok. -/
theorem object_type_missing_optional_key_short_circuits_witness :
    objectValidate noOracles
      [("a", .advanced (.optional (.basic .string))), ("b", .basic .string)]
      (.object []) = .ok :=
  (object_type_missing_optional_key_short_circuits noOracles "a"
    (.basic .string) [("b", .basic .string)] [] rfl).2

lemma jsonLookup_cons_ne (k key : String) (v : Value)
    (target : List (String × Value)) (h : key ≠ k) :
    jsonLookup ((k, v) :: target) key = jsonLookup target key := by
  simp only [jsonLookup]
  rw [if_neg fun hk => h hk.symm]

lemma objectGo_eq_nil (o : ExternalFormatOracles)
    (tm : List (String × Value)) : objectGo o [] tm = .ok := by
  rw [objectGo.eq_def]

lemma objectGo_eq_cons (o : ExternalFormatOracles) (key : String)
    (schema : SchemaType) (rest : List (String × SchemaType))
    (tm : List (String × Value)) :
    objectGo o ((key, schema) :: rest) tm
      = match jsonLookup tm key with
        | none =>
          if isOptionalSchema schema then .ok
          else .err (.missingObjectKey key)
        | some value =>
          match SchemaType.validate o schema value with
          | .ok => objectGo o rest tm
          | .err e => .err (.schemaTypeValidationError e)
          | .diverge p => .diverge p := by
  rw [objectGo.eq_def]

lemma objectGo_cons_undeclared (o : ExternalFormatOracles)
    (entries : List (String × SchemaType)) (k : String) (v : Value)
    (target : List (String × Value)) (h : ∀ p ∈ entries, p.1 ≠ k) :
    objectGo o entries ((k, v) :: target) = objectGo o entries target := by
  induction entries with
  | nil => rw [objectGo_eq_nil, objectGo_eq_nil]
  | cons hd tl ih =>
    obtain ⟨key, schema⟩ := hd
    have hk : key ≠ k := h (key, schema) (List.mem_cons_self _ _)
    have htl : ∀ p ∈ tl, p.1 ≠ k := fun p hp => h p (List.mem_cons_of_mem _ hp)
    rw [objectGo_eq_cons, objectGo_eq_cons,
      jsonLookup_cons_ne k key v target hk]
    split
    · rfl
    · split
      · exact ih htl
      · rfl
      · rfl

/-- C7: adding a key/value pair whose key is not declared in the schema to
the candidate object never changes the result of ObjectType::validate. -/
theorem object_type_ignores_undeclared_keys :
    ∀ (o : ExternalFormatOracles) (entries : List (String × SchemaType))
      (k : String) (v : Value) (target : List (String × Value)),
      (∀ p ∈ entries, p.1 ≠ k) →
      objectValidate o entries (.object ((k, v) :: target))
        = objectValidate o entries (.object target) := by
  intro o entries k v target h
  simp only [objectValidate]
  exact objectGo_cons_undeclared o entries k v target h

/-- Witness for C7 at a concrete schema and candidate. -/
theorem object_type_ignores_undeclared_keys_witness :
    objectValidate noOracles [("name", .basic .string)]
      (.object [("extra", .number (.posInt 1)), ("name", .string "A")])
      = objectValidate noOracles [("name", .basic .string)]
        (.object [("name", .string "A")]) :=
  object_type_ignores_undeclared_keys noOracles [("name", .basic .string)]
    "extra" (.number (.posInt 1)) [("name", .string "A")] (by decide)

lemma anyOfGo_all_err (o : ExternalFormatOracles)
    (variants : List SchemaType) (value : Value)
    (h : ∀ t ∈ variants, ∃ e, SchemaType.validate o t value = .err e) :
    anyOfGo o variants value = .err () := by
  induction variants with
  | nil => simp [anyOfGo]
  | cons hd tl ih =>
    obtain ⟨e, he⟩ := h hd (List.mem_cons_self _ _)
    simp only [anyOfGo, he]
    exact ih fun t ht => h t (List.mem_cons_of_mem _ ht)

lemma anyOfGo_first_ok (o : ExternalFormatOracles) (pre : List SchemaType)
    (s : SchemaType) (post : List SchemaType) (value : Value)
    (hpre : ∀ t ∈ pre, ∃ e, SchemaType.validate o t value = .err e)
    (hs : SchemaType.validate o s value = .ok) :
    anyOfGo o (pre ++ s :: post) value = .ok := by
  induction pre with
  | nil => simp [anyOfGo, hs]
  | cons hd tl ih =>
    obtain ⟨e, he⟩ := hpre hd (List.mem_cons_self _ _)
    simp only [List.cons_append, anyOfGo, he]
    exact ih fun t ht => hpre t (List.mem_cons_of_mem _ ht)

/-- C5: AnyOfType::validate tries the variants in listed order and returns
Ok at the first success; when every variant fails, the error carries the
entire configured variants list. -/
theorem any_of_type_validate_spec :
    ∀ (o : ExternalFormatOracles) (variants : List SchemaType) (value : Value),
      ((∀ t ∈ variants, ∃ e, SchemaType.validate o t value = .err e) →
        anyOfValidate o variants value = .err ⟨variants⟩)
      ∧ (∀ (pre : List SchemaType) (s : SchemaType) (post : List SchemaType),
          variants = pre ++ s :: post →
          (∀ t ∈ pre, ∃ e, SchemaType.validate o t value = .err e) →
          SchemaType.validate o s value = .ok →
          anyOfValidate o variants value = .ok) := by
  intro o variants value
  constructor
  · intro h
    simp [anyOfValidate, anyOfGo_all_err o variants value h]
  · intro pre s post hsplit hpre hs
    subst hsplit
    simp [anyOfValidate, anyOfGo_first_ok o pre s post value hpre hs]

/-- Witness for C5: with variants [String, Number], null fails with the
full list and a number succeeds via the second variant. -/
theorem any_of_type_validate_spec_witness :
    anyOfValidate noOracles [.basic .string, .basic .number] .null
      = .err ⟨[.basic .string, .basic .number]⟩
    ∧ anyOfValidate noOracles [.basic .string, .basic .number]
        (.number (.posInt 10)) = .ok :=
  ⟨(any_of_type_validate_spec noOracles [.basic .string, .basic .number]
        .null).1
      (by
        intro t ht
        simp only [List.mem_cons, List.mem_singleton] at ht
        rcases ht with h | h | h
        · subst h
          exact ⟨.basicTypeValidationError (.incorrectType .string .null), by
            simp [SchemaType.validate, BasicType.validate, VOutcome.mapErr]⟩
        · subst h
          exact ⟨.basicTypeValidationError (.incorrectType .number .null), by
            simp [SchemaType.validate, BasicType.validate, VOutcome.mapErr]⟩
        · cases h),
    (any_of_type_validate_spec noOracles [.basic .string, .basic .number]
        (.number (.posInt 10))).2 [.basic .string] (.basic .number) []
      rfl
      (by
        intro t ht
        simp only [List.mem_singleton] at ht
        subst ht
        exact ⟨.basicTypeValidationError
            (.incorrectType .string (.number (.posInt 10))), by
          simp [SchemaType.validate, BasicType.validate, VOutcome.mapErr]⟩)
      (by simp [SchemaType.validate, BasicType.validate, VOutcome.mapErr])⟩

/-- C9: the legacy field module's optional wrapper is unimplemented —
Field::Optional reaches OptionalField::validate, whose todo!() body panics
for every input — while OptionalType in the schema_type module accepts null
and delegates any other value to the wrapped schema. -/
theorem legacy_optional_field_panics :
    ∀ (f : LegacyField) (v : Value) (o : ExternalFormatOracles)
      (kind : SchemaType),
      LegacyField.validate (.optional f) v = .diverge .todoOptionalField
      ∧ optionalValidate o kind .null = .ok
      ∧ (v.isNull = false →
          optionalValidate o kind v = SchemaType.validate o kind v) := by
  intro f v o kind
  refine ⟨?_, ?_, ?_⟩
  · simp [LegacyField.validate, optionalFieldValidate]
  · simp [optionalValidate]
  · intro h
    cases v <;> simp_all [Value.isNull, optionalValidate]

/-- Witness for C9: a concrete legacy optional field panics on a boolean,
while OptionalType delegates the same boolean to its wrapped schema. -/
theorem legacy_optional_field_panics_witness :
    LegacyField.validate (.optional (.string none none none)) (.bool true)
      = .diverge .todoOptionalField
    ∧ optionalValidate noOracles (.basic .boolean) (.bool true)
      = SchemaType.validate noOracles (.basic .boolean) (.bool true) :=
  ⟨(legacy_optional_field_panics (.string none none none) (.bool true)
      noOracles (.basic .boolean)).1,
    (legacy_optional_field_panics (.string none none none) (.bool true)
      noOracles (.basic .boolean)).2.2 rfl⟩

lemma tupleGo_eq_nil (o : ExternalFormatOracles) (value : Value) (i : Nat) :
    tupleGo o [] value i = .ok := by
  rw [tupleGo.eq_def]

lemma tupleGo_eq_cons (o : ExternalFormatOracles) (schema : SchemaType)
    (rest : List SchemaType) (value : Value) (i : Nat) :
    tupleGo o (schema :: rest) value i
      = match value.get i with
        | none => .diverge .tupleExpect
        | some item_value =>
          match SchemaType.validate o schema item_value with
          | .ok => tupleGo o rest value (i + 1)
          | .err e => .err (.schemaTypeValidationError e)
          | .diverge p => .diverge p := by
  rw [tupleGo.eq_def]

lemma tupleGo_eq_tupleGoList (o : ExternalFormatOracles)
    (items : List SchemaType) :
    ∀ (i : Nat) (vals : List Value),
      tupleGo o items (.array vals) i = tupleGoList o items (vals.drop i) := by
  induction items with
  | nil => intro i vals; rw [tupleGo_eq_nil]; simp [tupleGoList]
  | cons schema rest ih =>
    intro i vals
    rw [tupleGo_eq_cons]
    have hget : Value.get (.array vals) i = vals[i]? := rfl
    rw [hget]
    cases h : vals[i]? with
    | none =>
      have hle : vals.length ≤ i := by
        simpa [List.getElem?_eq_none_iff] using h
      rw [List.drop_eq_nil_of_le hle]
      simp [tupleGoList]
    | some w =>
      have hlt : i < vals.length := by
        rcases List.getElem?_eq_some.mp h with ⟨hw, _⟩
        exact hw
      have hw : vals[i] = w := by
        rcases List.getElem?_eq_some.mp h with ⟨_, hw⟩
        exact hw
      have hdrop : vals.drop i = w :: vals.drop (i + 1) := by
        rw [List.drop_eq_getElem_cons hlt, hw]
      show (match SchemaType.validate o schema w with
            | .ok => tupleGo o rest (.array vals) (i + 1)
            | .err e => VOutcome.err (.schemaTypeValidationError e)
            | .diverge p => VOutcome.diverge p)
          = tupleGoList o (schema :: rest) (vals.drop i)
      rw [hdrop]
      simp only [tupleGoList]
      cases SchemaType.validate o schema w with
      | ok => exact ih (i + 1) vals
      | err e => rfl
      | diverge p => rfl

lemma tupleGoList_all_ok (o : ExternalFormatOracles) :
    ∀ (ss : List SchemaType) (vs : List Value),
      ss.length = vs.length →
      (∀ (i : Nat) (h1 : i < ss.length) (h2 : i < vs.length),
        SchemaType.validate o ss[i] vs[i] = .ok) →
      tupleGoList o ss vs = .ok := by
  intro ss
  induction ss with
  | nil => intro vs _ _; simp [tupleGoList]
  | cons s sr ih =>
    intro vs hlen hok
    cases vs with
    | nil => simp at hlen
    | cons v vr =>
      have h0 : SchemaType.validate o s v = .ok := by
        simpa using hok 0 (by simp) (by simp)
      simp only [tupleGoList, h0]
      refine ih vr (by simpa using hlen) fun i h1 h2 => ?_
      simpa using hok (i + 1) (by simpa using Nat.succ_lt_succ h1)
        (by simpa using Nat.succ_lt_succ h2)

lemma tupleGoList_first_err (o : ExternalFormatOracles) :
    ∀ (i : Nat) (ss : List SchemaType) (vs : List Value)
      (h1 : i < ss.length) (h2 : i < vs.length)
      (e : SchemaTypeValidationError),
      (∀ (j : Nat) (hj1 : j < ss.length) (hj2 : j < vs.length), j < i →
        SchemaType.validate o ss[j] vs[j] = .ok) →
      SchemaType.validate o ss[i] vs[i] = .err e →
      tupleGoList o ss vs = .err (.schemaTypeValidationError e) := by
  intro i
  induction i with
  | zero =>
    intro ss vs h1 h2 e _ hi
    cases ss with
    | nil => simp at h1
    | cons s sr =>
      cases vs with
      | nil => simp at h2
      | cons v vr =>
        simp only [List.getElem_cons_zero] at hi
        simp [tupleGoList, hi]
  | succ n ih =>
    intro ss vs h1 h2 e hfront hi
    cases ss with
    | nil => simp at h1
    | cons s sr =>
      cases vs with
      | nil => simp at h2
      | cons v vr =>
        have h0 : SchemaType.validate o s v = .ok := by
          simpa using hfront 0 (by simp) (by simp) (by omega)
        simp only [tupleGoList, h0]
        refine ih sr vr (by simpa using h1) (by simpa using h2) e
          (fun j hj1 hj2 hjn => ?_) (by simpa using hi)
        simpa using hfront (j + 1) (by simpa using Nat.succ_lt_succ hj1)
          (by simpa using Nat.succ_lt_succ hj2) (by omega)

/-- C6: TupleType::validate rejects non-arrays with NotAnArray; an array of
the wrong length fails with IncorrectLength carrying (actual, expected) in
that order; an array of the right length is validated position by position
in order, the first positional failure being returned boxed, and Ok when
every position passes. -/
theorem tuple_type_validate_spec :
    ∀ (o : ExternalFormatOracles) (items : List SchemaType) (value : Value),
      (value.isArray = false → tupleValidate o items value = .err .notAnArray)
      ∧ (∀ vals : List Value, value = .array vals →
          vals.length ≠ items.length →
          tupleValidate o items value
            = .err (.incorrectLength vals.length items.length))
      ∧ (∀ vals : List Value, value = .array vals →
          vals.length = items.length →
          ((∀ (i : Nat) (h1 : i < items.length) (h2 : i < vals.length),
              SchemaType.validate o items[i] vals[i] = .ok) →
            tupleValidate o items value = .ok)
          ∧ (∀ (i : Nat) (h1 : i < items.length) (h2 : i < vals.length)
              (e : SchemaTypeValidationError),
              (∀ (j : Nat) (hj1 : j < items.length) (hj2 : j < vals.length),
                j < i → SchemaType.validate o items[j] vals[j] = .ok) →
              SchemaType.validate o items[i] vals[i] = .err e →
              tupleValidate o items value
                = .err (.schemaTypeValidationError e))) := by
  intro o items value
  refine ⟨fun h => ?_, fun vals hv hne => ?_, fun vals hv hlen => ?_⟩
  · cases value <;> simp_all [Value.isArray, tupleValidate]
  · subst hv
    simp [tupleValidate, hne]
  · subst hv
    have hstep : tupleValidate o items (.array vals)
        = tupleGoList o items vals := by
      simp only [tupleValidate]
      rw [if_neg fun hne => hne hlen, tupleGo_eq_tupleGoList o items 0 vals,
        List.drop_zero]
    constructor
    · intro hok
      rw [hstep]
      exact tupleGoList_all_ok o items vals hlen.symm
        fun i h1 h2 => hok i h1 h2
    · intro i h1 h2 e hfront hi
      rw [hstep]
      exact tupleGoList_first_err o i items vals h1 h2 e hfront hi

/-- Witness for C6: with schema [String, Number], the candidate ["",""]
fails on position 1 with the boxed Number-type error, and the candidate
[""] fails with IncorrectLength(1, 2). -/
theorem tuple_type_validate_spec_witness :
    tupleValidate noOracles [.basic .string, .basic .number]
      (.array [.string "", .string ""])
      = .err (.schemaTypeValidationError
          (.basicTypeValidationError (.incorrectType .number (.string ""))))
    ∧ tupleValidate noOracles [.basic .string, .basic .number]
        (.array [.string ""]) = .err (.incorrectLength 1 2) := by
  constructor
  · refine ((tuple_type_validate_spec noOracles [.basic .string, .basic .number]
      (.array [.string "", .string ""])).2.2 _ rfl (by decide)).2 1 (by decide)
      (by decide) _ (fun j hj1 hj2 hlt => ?_) ?_
    · have hj : j = 0 := by omega
      subst hj
      simp [SchemaType.validate, BasicType.validate, VOutcome.mapErr]
    · simp [SchemaType.validate, BasicType.validate, VOutcome.mapErr]
  · exact (tuple_type_validate_spec noOracles [.basic .string, .basic .number]
      (.array [.string ""])).2.1 _ rfl (by decide)

lemma validate_number_noTupleExpect (b : BasicType) (n : JNumber) :
    (BasicType.validate_number b n).isTupleExpectPanic = false := by
  cases b <;> cases n
  all_goals
    simp [BasicType.validate_number, JNumber.as_f64, JNumber.as_u64,
      JNumber.as_i64, JNumber.is_u64, apply_ite (VOutcome.isTupleExpectPanic)]
  all_goals split <;> simp

lemma basic_validate_noTupleExpect (o : ExternalFormatOracles)
    (b : BasicType) (v : Value) :
    (BasicType.validate o b v).isTupleExpectPanic = false := by
  cases b <;> cases v <;>
    simp [BasicType.validate, validate_number_noTupleExpect,
      apply_ite (VOutcome.isTupleExpectPanic)]

lemma advanced_string_validate_noTupleExpect (t : AdvancedStringType)
    (v : Value) : (t.validate v).isTupleExpectPanic = false := by
  obtain ⟨rf, minL, maxL⟩ := t
  cases v <;> cases minL <;> cases maxL <;>
    simp [AdvancedStringType.validate, apply_ite (VOutcome.isTupleExpectPanic)]

mutual

theorem schema_validate_noTupleExpect (o : ExternalFormatOracles)
    (s : SchemaType) (v : Value) :
    (SchemaType.validate o s v).isTupleExpectPanic = false := by
  cases s with
  | basic b =>
    simp [SchemaType.validate, basic_validate_noTupleExpect]
  | field ft label hint =>
    simp only [SchemaType.validate]
    exact schema_validate_noTupleExpect o ft v
  | advanced a =>
    simp only [SchemaType.validate, isTupleExpectPanic_mapErr]
    exact advanced_validate_noTupleExpect o a v
  | array item =>
    simp only [SchemaType.validate, isTupleExpectPanic_mapErr]
    exact array_validate_noTupleExpect o false item v
  | tuple items =>
    simp only [SchemaType.validate, isTupleExpectPanic_mapErr]
    exact tuple_validate_noTupleExpect o items v
  | object entries =>
    simp only [SchemaType.validate, isTupleExpectPanic_mapErr]
    exact object_validate_noTupleExpect o entries v
termination_by (sizeOf s, 0)

theorem advanced_validate_noTupleExpect (o : ExternalFormatOracles)
    (a : AdvancedType) (v : Value) :
    (AdvancedType.validate o a v).isTupleExpectPanic = false := by
  cases a with
  | string t =>
    simp [AdvancedType.validate, advanced_string_validate_noTupleExpect]
  | anyOf variants =>
    simp only [AdvancedType.validate, isTupleExpectPanic_mapErr]
    exact anyOf_validate_noTupleExpect o variants v
  | tuple items =>
    simp only [AdvancedType.validate, isTupleExpectPanic_mapErr]
    exact tuple_validate_noTupleExpect o items v
  | array rf items =>
    simp only [AdvancedType.validate, isTupleExpectPanic_mapErr]
    exact array_validate_noTupleExpect o rf items v
  | object entries =>
    simp only [AdvancedType.validate, isTupleExpectPanic_mapErr]
    exact object_validate_noTupleExpect o entries v
  | optional kind =>
    simp only [AdvancedType.validate, isTupleExpectPanic_mapErr]
    exact optional_validate_noTupleExpect o kind v
termination_by (sizeOf a, 2)

theorem optional_validate_noTupleExpect (o : ExternalFormatOracles)
    (kind : SchemaType) (v : Value) :
    (optionalValidate o kind v).isTupleExpectPanic = false := by
  cases v
  case null => simp [optionalValidate]
  all_goals simp only [optionalValidate]
  all_goals exact schema_validate_noTupleExpect o kind _
termination_by (sizeOf kind, 1)

theorem anyOf_validate_noTupleExpect (o : ExternalFormatOracles)
    (variants : List SchemaType) (v : Value) :
    (anyOfValidate o variants v).isTupleExpectPanic = false := by
  cases hgo : anyOfGo o variants v with
  | ok => simp [anyOfValidate, hgo]
  | err u => simp [anyOfValidate, hgo]
  | diverge p =>
    have h := anyOfGo_noTupleExpect o variants v
    rw [hgo] at h
    simpa [anyOfValidate, hgo] using h
termination_by (sizeOf variants, 1)

theorem anyOfGo_noTupleExpect (o : ExternalFormatOracles)
    (variants : List SchemaType) (v : Value) :
    (anyOfGo o variants v).isTupleExpectPanic = false := by
  cases variants with
  | nil => simp [anyOfGo]
  | cons variant rest =>
    have h := schema_validate_noTupleExpect o variant v
    cases hv : SchemaType.validate o variant v with
    | ok => simp [anyOfGo, hv]
    | err e =>
      simp only [anyOfGo, hv]
      exact anyOfGo_noTupleExpect o rest v
    | diverge p =>
      rw [hv] at h
      simpa [anyOfGo, hv] using h
termination_by (sizeOf variants, 0)

theorem array_validate_noTupleExpect (o : ExternalFormatOracles)
    (rf : Bool) (items : SchemaType) (v : Value) :
    (arrayValidate o rf items v).isTupleExpectPanic = false := by
  cases v
  case array vals =>
    simp only [arrayValidate]
    split
    · simp
    · exact arrayGo_noTupleExpect o items vals
  all_goals simp [arrayValidate]
termination_by (sizeOf items, 1 + sizeOf v)

theorem arrayGo_noTupleExpect (o : ExternalFormatOracles)
    (items : SchemaType) (vals : List Value) :
    (arrayGo o items vals).isTupleExpectPanic = false := by
  cases vals with
  | nil => simp [arrayGo]
  | cons item rest =>
    have h := schema_validate_noTupleExpect o items item
    cases hv : SchemaType.validate o items item with
    | ok =>
      simp only [arrayGo, hv]
      exact arrayGo_noTupleExpect o items rest
    | err e => simp [arrayGo, hv]
    | diverge p =>
      rw [hv] at h
      simpa [arrayGo, hv] using h
termination_by (sizeOf items, sizeOf vals)

theorem object_validate_noTupleExpect (o : ExternalFormatOracles)
    (entries : List (String × SchemaType)) (v : Value) :
    (objectValidate o entries v).isTupleExpectPanic = false := by
  cases v
  case object target =>
    simp only [objectValidate]
    exact objectGo_noTupleExpect o entries target
  all_goals simp [objectValidate]
termination_by (sizeOf entries, 1)

theorem objectGo_noTupleExpect (o : ExternalFormatOracles)
    (entries : List (String × SchemaType))
    (target : List (String × Value)) :
    (objectGo o entries target).isTupleExpectPanic = false := by
  cases entries with
  | nil => rw [objectGo_eq_nil]; rfl
  | cons hd rest =>
    obtain ⟨key, schema⟩ := hd
    rw [objectGo_eq_cons]
    cases jsonLookup target key with
    | none => simp [apply_ite (VOutcome.isTupleExpectPanic)]
    | some w =>
      show (match SchemaType.validate o schema w with
            | .ok => objectGo o rest target
            | .err e => VOutcome.err (.schemaTypeValidationError e)
            | .diverge p => VOutcome.diverge p).isTupleExpectPanic = false
      have h := schema_validate_noTupleExpect o schema w
      cases hv : SchemaType.validate o schema w with
      | ok => exact objectGo_noTupleExpect o rest target
      | err e => rfl
      | diverge p =>
        rw [hv] at h
        simpa using h
termination_by (sizeOf entries, 0)

theorem tuple_validate_noTupleExpect (o : ExternalFormatOracles)
    (items : List SchemaType) (v : Value) :
    (tupleValidate o items v).isTupleExpectPanic = false := by
  cases v
  case array vals =>
    simp only [tupleValidate]
    split
    · simp
    · rename_i hne
      exact tupleGo_noTupleExpect o items vals 0 (by omega)
  all_goals simp [tupleValidate]
termination_by (sizeOf items, 1 + sizeOf v)

theorem tupleGo_noTupleExpect (o : ExternalFormatOracles)
    (items : List SchemaType) (vals : List Value) (i : Nat)
    (h : i + items.length ≤ vals.length) :
    (tupleGo o items (.array vals) i).isTupleExpectPanic = false := by
  cases items with
  | nil => rw [tupleGo_eq_nil]; rfl
  | cons schema rest =>
    rw [tupleGo_eq_cons]
    have hlt : i < vals.length := by
      simp only [List.length_cons] at h
      omega
    have hsome : Value.get (.array vals) i = some vals[i] := by
      show vals[i]? = some vals[i]
      exact List.getElem?_eq_getElem hlt
    rw [hsome]
    show (match SchemaType.validate o schema vals[i] with
          | .ok => tupleGo o rest (.array vals) (i + 1)
          | .err e => VOutcome.err (.schemaTypeValidationError e)
          | .diverge p => VOutcome.diverge p).isTupleExpectPanic = false
    have hval := schema_validate_noTupleExpect o schema vals[i]
    cases hv : SchemaType.validate o schema vals[i] with
    | ok =>
      exact tupleGo_noTupleExpect o rest vals (i + 1)
        (by simp only [List.length_cons] at h; omega)
    | err e => rfl
    | diverge p =>
      rw [hv] at hval
      simpa using hval
termination_by (sizeOf items, sizeOf vals)

end

/-- C10 (amended): once the length check has passed every per-position
Value::get lookup yields Some, so the internal expect of
TupleType::validate never fires for any schema and candidate; the validate
itself can still panic, but only via a nested schema's validate (see the
counterexample). -/
theorem tuple_type_expect_is_unreachable :
    ∀ (o : ExternalFormatOracles) (items : List SchemaType) (value : Value),
      (tupleValidate o items value).isTupleExpectPanic = false :=
  fun o items value => tuple_validate_noTupleExpect o items value

/-- C10 counterexample: TupleType::validate does panic for a suitable
schema and candidate — the nested Basic(I16) schema reaches the todo!()
arm of BasicType::validate_number — so "TupleType::validate never panics
for any schema and candidate" is false as stated. -/
theorem tuple_type_validate_can_panic :
    tupleValidate noOracles [.basic .i16] (.array [.number (.posInt 0)])
      = .diverge .todoNum := by
  simp [tupleValidate, tupleGo, Value.get, SchemaType.validate,
    BasicType.validate, BasicType.validate_number, VOutcome.mapErr]
